import Mathlib

/-!
Verification of the batch absolution analyzer (batch_processor.py and
batch_processor_llm.py). The Python code is shallowly embedded: JSON
payloads become structures whose optional string fields default to the
empty string (mirroring dict.get with a falsy default), the provider and
the reasoning service become oracle functions, and the thread pool is
modelled by an explicit completion order (a permutation of the input
list). Call counts of the external oracles are returned alongside
results so that claims about "no network call" are statable. The
fetch function catches every exception internally in the source, so the
unreachable exception branch of the batch loop is not modelled.
-/

/-- Python str.upper restricted to the alphabet this system manipulates:
ASCII plus the accented Latin letters appearing in the vocabulary and in
party roles. -/
def pyCharUpper (c : Char) : Char :=
  if c = 'á' then 'Á' else if c = 'à' then 'À' else if c = 'â' then 'Â'
  else if c = 'ã' then 'Ã' else if c = 'ä' then 'Ä' else if c = 'ç' then 'Ç'
  else if c = 'é' then 'É' else if c = 'è' then 'È' else if c = 'ê' then 'Ê'
  else if c = 'í' then 'Í' else if c = 'ó' then 'Ó' else if c = 'ô' then 'Ô'
  else if c = 'õ' then 'Õ' else if c = 'ú' then 'Ú' else if c = 'ü' then 'Ü'
  else c.toUpper

/-- Python str.lower restricted likewise. -/
def pyCharLower (c : Char) : Char :=
  if c = 'Á' then 'á' else if c = 'À' then 'à' else if c = 'Â' then 'â'
  else if c = 'Ã' then 'ã' else if c = 'Ä' then 'ä' else if c = 'Ç' then 'ç'
  else if c = 'É' then 'é' else if c = 'È' then 'è' else if c = 'Ê' then 'ê'
  else if c = 'Í' then 'í' else if c = 'Ó' then 'ó' else if c = 'Ô' then 'ô'
  else if c = 'Õ' then 'õ' else if c = 'Ú' then 'ú' else if c = 'Ü' then 'ü'
  else c.toLower

def pyUpper (s : String) : String := ⟨s.data.map pyCharUpper⟩

def pyLower (s : String) : String := ⟨s.data.map pyCharLower⟩

/-- Python str.strip: whitespace removed from both ends. -/
def pyStrip (s : String) : String :=
  ⟨((s.data.dropWhile Char.isWhitespace).reverse.dropWhile
      Char.isWhitespace).reverse⟩

/-- Python substring containment: needle in hay. -/
def strContains (hay needle : String) : Bool :=
  (List.range (hay.data.length + 1)).any fun i =>
    needle.data.isPrefixOf (hay.data.drop i)

/-- One entry of a lawsuit Parties list. Missing keys are the empty
string, as dict.get with a default produces. -/
structure Party where
  type : String
  name : String
  specificType : String
deriving DecidableEq

/-- One entry of a lawsuit Decisions list. -/
structure DecisionEntry where
  decisionContent : String
  decisionDate : String
deriving DecidableEq

/-- One lawsuit record of the provider payload. String fields default to
the empty string when the key is missing, which is interchangeable with
a missing key under every read the source performs (equality tests,
truthiness, or-chains). -/
structure Lawsuit where
  courtType : String
  caseNumber : String
  number : String
  decision : String
  content : String
  description : String
  summary : String
  decisions : List DecisionEntry
  closeDate : String
  lastMovementDate : String
  courtName : String
  courtDistrict : String
  parties : List Party
deriving DecidableEq

/-- One entry of the provider Result list: BasicData.Name (absent
modelled as none) and Processes.Lawsuits. -/
structure Pessoa where
  name : Option String
  lawsuits : List Lawsuit
deriving DecidableEq

/-- The provider payload; a missing or empty Result key is the empty
list. -/
structure Payload where
  result : List Pessoa
deriving DecidableEq

/-- The party test inside the defendant loop of analyze_absolution. -/
def isReuParty (nome : String) (p : Party) : Bool :=
  (pyUpper p.type == "DEFENDANT" || pyUpper p.type == "RÉU"
      || pyUpper p.specificType == "RÉU")
    && strContains (pyUpper (pyStrip p.name)) (pyUpper (pyStrip nome))

/-- The inner loop over Parties: the person is a defendant when some
party matches. -/
def is_reu (nome : String) (proc : Lawsuit) : Bool :=
  proc.parties.any (isReuParty nome)

/-- The filter applied to Lawsuits: criminal court and the person as
defendant. -/
def isDefendant (nome : String) (proc : Lawsuit) : Bool :=
  proc.courtType == "CRIMINAL" && is_reu nome proc

/-- processos_criminais of analyze_absolution (and of the llm variant,
whose filtering loop is identical). -/
def processos_criminais (nome : String) (lawsuits : List Lawsuit) :
    List Lawsuit :=
  lawsuits.filter (isDefendant nome)

/-- The or-chain proc.get(CaseNumber) or proc.get(Number, ""). -/
def numero_processo (proc : Lawsuit) : String :=
  if proc.caseNumber ≠ "" then proc.caseNumber else proc.number

/-- The or-chain proc.get(CloseDate) or proc.get(LastMovementDate). -/
def data_processo (proc : Lawsuit) : String :=
  if proc.closeDate ≠ "" then proc.closeDate else proc.lastMovementDate

/-- The keyword vocabulary palavras_absolvicao. -/
def palavras_absolvicao : List String :=
  ["absolv", "improcedent", "arquiv", "extinç",
   "não procede", "nao procede", "julgo improcedente",
   "absolvo", "não há elementos", "nao ha elementos",
   "ausência de provas", "ausencia de provas",
   "insuficiência de provas", "insuficiencia de provas"]

/-- Whether some vocabulary term occurs in the lowercased field. -/
def campoMatch (campo : String) : Bool :=
  palavras_absolvicao.any fun palavra => strContains (pyLower campo) palavra

/-- The subtype classifier of the recorded finding. -/
def classify_absolution_type (texto : String) : String :=
  let t := pyLower texto
  if strContains t "absolv" then "Absolvição"
  else if strContains t "improcedent" || strContains t "não procede"
      || strContains t "nao procede" then "Improcedência"
  else if strContains t "arquiv" then "Arquivamento"
  else if strContains t "extinç" then "Extinção"
  else "Outra forma de absolvição"

/-- The record appended to absolvicoes on a keyword hit. -/
structure Finding where
  processo : String
  tipo_decisao : String
  data : String
  orgao : String
  comarca : String
  trecho_decisao : String
deriving DecidableEq

/-- The 200-character excerpt with an ellipsis when truncated. -/
def trecho_of (campo : String) : String :=
  if campo.length > 200 then (⟨campo.data.take 200⟩ : String) ++ "..." else campo

def mkFinding (proc : Lawsuit) (campo : String) : Finding :=
  { processo := numero_processo proc
    tipo_decisao := classify_absolution_type campo
    data := data_processo proc
    orgao := proc.courtName
    comarca := proc.courtDistrict
    trecho_decisao := trecho_of campo }

/-- The break condition after each scanned field: the last recorded
finding carries the case number of the lawsuit under scan. -/
def lastProcessoIs (numero : String) (acc : List Finding) : Bool :=
  match acc.getLast? with
  | some f => f.processo == numero
  | none => false

/-- The scan of one lawsuit over campos_decisao, threading the shared
absolvicoes accumulator exactly as the source loop does: empty fields
are skipped, a keyword hit appends one finding, and scanning stops as
soon as the last accumulated finding carries this case number. -/
def scanFields (proc : Lawsuit) (acc : List Finding) :
    List String → List Finding
  | [] => acc
  | campo :: rest =>
    if pyStrip campo = "" then scanFields proc acc rest
    else
      let acc2 := if campoMatch campo then acc ++ [mkFinding proc campo] else acc
      if lastProcessoIs (numero_processo proc) acc2 then acc2
      else scanFields proc acc2 rest

/-- The scanned text fields of a lawsuit, in source order. -/
def campos_decisao (proc : Lawsuit) : List String :=
  [proc.decision, proc.content, proc.description, proc.summary]
    ++ proc.decisions.map (fun d => d.decisionContent)

/-- The result record of the keyword analyzer. -/
structure AnalysisResult where
  cpf : String
  nome : String
  foi_absolvido : Option Bool
  total_processos_criminais : Nat
  total_absolvicoes : Nat
  detalhes_absolvicoes : List Finding
  status : String
deriving DecidableEq

/-- analyze_absolution of batch_processor.py. The typed model cannot
raise, so the except branch of the source is unreachable here. -/
def analyze_absolution (bdc : Payload) (cpf : String) : AnalysisResult :=
  match bdc.result with
  | [] =>
    { cpf := cpf, nome := "Não encontrado", foi_absolvido := none
      total_processos_criminais := 0, total_absolvicoes := 0
      detalhes_absolvicoes := [], status := "dados_nao_encontrados" }
  | pessoa :: _ =>
    let nome := pessoa.name.getD "Nome não informado"
    let pcs := processos_criminais nome pessoa.lawsuits
    let absolvicoes :=
      pcs.foldl (fun acc proc => scanFields proc acc (campos_decisao proc)) []
    { cpf := cpf, nome := nome
      foi_absolvido := some (decide (0 < absolvicoes.length))
      total_processos_criminais := pcs.length
      total_absolvicoes := absolvicoes.length
      detalhes_absolvicoes := absolvicoes
      status := "sucesso" }

/-- re.sub removing every non-digit character. -/
def sanitize (cpf : String) : String := ⟨cpf.data.filter Char.isDigit⟩

/-- What fetch_single_cpf_data hands to the batch loop: the provider
payload, or a dict carrying an error key. -/
inductive FetchOutcome where
  | ok (payload : Payload)
  | err (msg : String)
deriving DecidableEq

/-- fetch_single_cpf_data. The provider oracle stands for the HTTP POST
on the sanitized identifier: ok is a parsed payload, error is any
transport, status or parsing exception text. The first component counts
provider calls issued. -/
def fetch_single_cpf_data (provider : String → Except String Payload)
    (cpf : String) : Nat × FetchOutcome :=
  let s := sanitize cpf
  if s.length = 11 then
    match provider s with
    | .ok p => (1, .ok p)
    | .error e => (1, .err e)
  else (0, .err "CPF inválido")

/-- The api-error result the batch loop builds when fetch reported an
error. -/
def erro_api_result (cpf msg : String) : AnalysisResult :=
  { cpf := cpf, nome := "Erro na consulta", foi_absolvido := none
    total_processos_criminais := 0, total_absolvicoes := 0
    detalhes_absolvicoes := [], status := "erro_api: " ++ msg }

/-- One unit of work of the keyword batch: fetch, then either the
api-error mapping or the analyzer. The analyzer is a parameter so that
its non-invocation on fetch errors is statable. -/
def process_one (analyzer : Payload → String → AnalysisResult)
    (provider : String → Except String Payload) (cpf : String) :
    AnalysisResult :=
  match (fetch_single_cpf_data provider cpf).2 with
  | .err msg => erro_api_result cpf msg
  | .ok payload => analyzer payload cpf

/-- The as_completed loop with enumerate starting at 1: results are
appended in completion order and the progress callback observes
(i, total, result) after each completion. The second component is the
list of callback invocations in order. -/
def batch_aux {α : Type} (step : String → α) (total : Nat) :
    Nat → List String → List α × List (Nat × Nat × α)
  | _, [] => ([], [])
  | i, cpf :: rest =>
    ((step cpf) :: (batch_aux step total (i + 1) rest).1,
     (i, total, step cpf) :: (batch_aux step total (i + 1) rest).2)

/-- process_batch of batch_processor.py, instrumented with the callback
trace. order is the completion order of the pool, a permutation of the
submitted identifiers. -/
def process_batch_full (provider : String → Except String Payload)
    (order : List String) :
    List AnalysisResult × List (Nat × Nat × AnalysisResult) :=
  batch_aux (process_one analyze_absolution provider) order.length 1 order

/-- The result list process_batch returns. -/
def process_batch (provider : String → Except String Payload)
    (order : List String) : List AnalysisResult :=
  (process_batch_full provider order).1

/-- The summary record of get_summary_stats; percentages are modelled
in exact rational arithmetic. -/
structure SummaryStats where
  total_processados : Nat
  total_absolvidos : Nat
  total_nao_absolvidos : Nat
  total_sem_dados : Nat
  percentual_absolvidos : ℚ
  percentual_nao_absolvidos : ℚ
  percentual_sem_dados : ℚ
deriving DecidableEq

/-- get_summary_stats of batch_processor.py. -/
def get_summary_stats (results : List AnalysisResult) : SummaryStats :=
  let total := results.length
  let absolvidos := results.countP fun r => r.foi_absolvido == some true
  let nao_absolvidos := results.countP fun r => r.foi_absolvido == some false
  let sem_dados := results.countP fun r => r.foi_absolvido == none
  { total_processados := total
    total_absolvidos := absolvidos
    total_nao_absolvidos := nao_absolvidos
    total_sem_dados := sem_dados
    percentual_absolvidos :=
      if 0 < total then (absolvidos : ℚ) / total * 100 else 0
    percentual_nao_absolvidos :=
      if 0 < total then (nao_absolvidos : ℚ) / total * 100 else 0
    percentual_sem_dados :=
      if 0 < total then (sem_dados : ℚ) / total * 100 else 0 }

/-- The parsed JSON object of the reasoning-service response. Each key
may be absent; a present foi_absolvido is the JSON tri-state
true/false/null. No validation is applied by the source, so the values
are arbitrary. -/
structure LLMJson where
  foi_absolvido : Option (Option Bool)
  confianca_analise : Option Int
  justificativa : Option String
  detalhes_ia : Option String
deriving DecidableEq

/-- The dict analyze_with_llm returns on an empty narrative. -/
def no_data_json : LLMJson :=
  { foi_absolvido := some none, confianca_analise := some 0
    justificativa := some "Nenhuma decisão disponível para análise"
    detalhes_ia := some "Sem dados suficientes" }

/-- The dict analyze_with_llm returns when the service call or the JSON
parse raised. -/
def llm_error_json (e : String) : LLMJson :=
  { foi_absolvido := some none, confianca_analise := some 0
    justificativa := some ("Erro na análise IA: " ++ e)
    detalhes_ia := some "Falha no processamento" }

/-- analyze_with_llm of batch_processor_llm.py. The llm oracle stands
for the chat-completion call followed by json.loads: ok is the parsed
object, error the text of any exception raised by either. The first
component counts reasoning-service calls issued. -/
def analyze_with_llm (llm : String → Except String LLMJson)
    (texto_decisoes : String) : Nat × LLMJson :=
  if pyStrip texto_decisoes = "" then (0, no_data_json)
  else
    match llm texto_decisoes with
    | .ok r => (1, r)
    | .error e => (1, llm_error_json e)

/-- The labelled non-empty text lines collected for one lawsuit, in
source order: Content, Decision, Description, then each decision entry
with its date. -/
def textos_processo (proc : Lawsuit) : List String :=
  (if proc.content ≠ "" then ["Conteúdo: " ++ proc.content] else [])
    ++ (if proc.decision ≠ "" then ["Decisão: " ++ proc.decision] else [])
    ++ (if proc.description ≠ "" then ["Descrição: " ++ proc.description] else [])
    ++ proc.decisions.enum.filterMap fun p =>
        if p.2.decisionContent ≠ "" then
          some ("Decisão " ++ toString (p.1 + 1) ++ " (" ++ p.2.decisionDate
            ++ "): " ++ p.2.decisionContent)
        else none

/-- The per-lawsuit narrative block of the consolidated text. -/
def texto_processo_completo (proc : Lawsuit) : String :=
  "\nPROCESSO " ++ numero_processo proc ++ " - " ++ proc.courtName ++ ":\n"
    ++ String.intercalate "\n" (textos_processo proc) ++ "\n---\n"

/-- The consolidated narrative texto_para_ia: one block per qualifying
lawsuit that yielded any text, joined by a newline. -/
def texto_para_ia (nome : String) (lawsuits : List Lawsuit) : String :=
  String.intercalate "\n"
    ((processos_criminais nome lawsuits).filterMap fun proc =>
      if textos_processo proc ≠ [] then some (texto_processo_completo proc)
      else none)

/-- The result record of the contextual analyzer. -/
structure LLMResult where
  cpf : String
  nome : String
  foi_absolvido : Option Bool
  confianca_analise : Int
  justificativa : String
  detalhes_ia : String
  total_processos_criminais : Nat
  status : String
deriving DecidableEq

/-- analyze_absolution_with_llm. The first component counts
reasoning-service calls. The dict.get extraction of the parsed response
uses join for the tri-state outcome (a missing key and JSON null both
read back as None) and the defaults 0 and the empty string. -/
def analyze_absolution_with_llm (llm : String → Except String LLMJson)
    (bdc : Payload) (cpf : String) : Nat × LLMResult :=
  match bdc.result with
  | [] =>
    (0,
      { cpf := cpf, nome := "Não encontrado", foi_absolvido := none
        confianca_analise := 0
        justificativa := "Dados não encontrados na base"
        detalhes_ia := "CPF não localizado"
        total_processos_criminais := 0
        status := "dados_nao_encontrados" })
  | pessoa :: _ =>
    let nome := pessoa.name.getD "Nome não informado"
    let pcs := processos_criminais nome pessoa.lawsuits
    let texto := texto_para_ia nome pessoa.lawsuits
    let out := analyze_with_llm llm texto
    (out.1,
      { cpf := cpf, nome := nome
        foi_absolvido := out.2.foi_absolvido.join
        confianca_analise := out.2.confianca_analise.getD 0
        justificativa := out.2.justificativa.getD ""
        detalhes_ia := out.2.detalhes_ia.getD ""
        total_processos_criminais := pcs.length
        status := "sucesso" })

/-- The api-error result of the llm batch loop. -/
def erro_api_result_llm (cpf msg : String) : LLMResult :=
  { cpf := cpf, nome := "Erro na consulta", foi_absolvido := none
    confianca_analise := 0
    justificativa := "Erro na API: " ++ msg
    detalhes_ia := "Falha na consulta de dados"
    total_processos_criminais := 0
    status := "erro_api: " ++ msg }

/-- One unit of work of the llm batch. -/
def process_one_llm (llm : String → Except String LLMJson)
    (provider : String → Except String Payload) (cpf : String) : LLMResult :=
  match (fetch_single_cpf_data provider cpf).2 with
  | .err msg => erro_api_result_llm cpf msg
  | .ok payload => (analyze_absolution_with_llm llm payload cpf).2

/-- process_batch of batch_processor_llm.py with the callback trace. -/
def process_batch_llm_full (llm : String → Except String LLMJson)
    (provider : String → Except String Payload) (order : List String) :
    List LLMResult × List (Nat × Nat × LLMResult) :=
  batch_aux (process_one_llm llm provider) order.length 1 order

/-- The result list of the llm process_batch. -/
def process_batch_llm (llm : String → Except String LLMJson)
    (provider : String → Except String Payload) (order : List String) :
    List LLMResult :=
  (process_batch_llm_full llm provider order).1

/-- The summary record of the llm get_summary_stats. -/
structure SummaryStatsLLM where
  total_processados : Nat
  total_absolvidos : Nat
  total_nao_absolvidos : Nat
  total_sem_dados : Nat
  percentual_absolvidos : ℚ
  percentual_nao_absolvidos : ℚ
  percentual_sem_dados : ℚ
  confianca_media_ia : ℚ
  analises_com_alta_confianca : Nat
  analises_com_baixa_confianca : Nat
deriving DecidableEq

/-- get_summary_stats of batch_processor_llm.py. Every result of the
typed model carries an integer confidence, so the None filter of the
source comprehension keeps everything. -/
def get_summary_stats_llm (results : List LLMResult) : SummaryStatsLLM :=
  let total := results.length
  let absolvidos := results.countP fun r => r.foi_absolvido == some true
  let nao_absolvidos := results.countP fun r => r.foi_absolvido == some false
  let sem_dados := results.countP fun r => r.foi_absolvido == none
  let confiancas := results.map fun r => r.confianca_analise
  { total_processados := total
    total_absolvidos := absolvidos
    total_nao_absolvidos := nao_absolvidos
    total_sem_dados := sem_dados
    percentual_absolvidos :=
      if 0 < total then (absolvidos : ℚ) / total * 100 else 0
    percentual_nao_absolvidos :=
      if 0 < total then (nao_absolvidos : ℚ) / total * 100 else 0
    percentual_sem_dados :=
      if 0 < total then (sem_dados : ℚ) / total * 100 else 0
    confianca_media_ia :=
      if confiancas ≠ [] then
        ((confiancas.sum : Int) : ℚ) / (confiancas.length : ℚ)
      else 0
    analises_com_alta_confianca := confiancas.countP fun c => 80 ≤ c
    analises_com_baixa_confianca := confiancas.countP fun c => c < 50 }

/-- A defendant party entry used by the concrete inputs below. -/
def partyDef : Party := { type := "DEFENDANT", name := "FULANO", specificType := "" }

/-- A person found in the base with no lawsuits at all. -/
def pessoaC2 : Pessoa := { name := some "FULANO DA SILVA", lawsuits := [] }

def payloadC2 : Payload := { result := [pessoaC2] }

/-- A qualifying criminal lawsuit whose only text reports a conviction,
so no absolution keyword occurs in any scanned field. -/
def procC3 : Lawsuit :=
  { courtType := "CRIMINAL", caseNumber := "0001", number := ""
    decision := "condenado pelo juiz", content := "", description := ""
    summary := "", decisions := [], closeDate := "", lastMovementDate := ""
    courtName := "TJ", courtDistrict := "SP", parties := [partyDef] }

def pessoaC3 : Pessoa := { name := some "FULANO", lawsuits := [procC3] }

def payloadC3 : Payload := { result := [pessoaC3] }

/-- A qualifying criminal lawsuit with case number X and an absolution
keyword in its Decision field. -/
def procC4a : Lawsuit :=
  { courtType := "CRIMINAL", caseNumber := "X", number := ""
    decision := "absolvo", content := "", description := "", summary := ""
    decisions := [], closeDate := "", lastMovementDate := ""
    courtName := "TJ", courtDistrict := "SP", parties := [partyDef] }

/-- A second qualifying lawsuit with the same case number X: its first
non-empty field has no keyword, its Content field has one. -/
def procC4b : Lawsuit :=
  { procC4a with decision := "nada consta", content := "absolvo" }

def pessoaC4 : Pessoa := { name := some "FULANO", lawsuits := [procC4a, procC4b] }

def payloadC4 : Payload := { result := [pessoaC4] }

/-- A qualifying criminal lawsuit with a non-empty Content field, so
the consolidated narrative is non-empty. -/
def procC10 : Lawsuit :=
  { courtType := "CRIMINAL", caseNumber := "77", number := ""
    decision := "", content := "sentença com fundamentação extensa"
    description := "", summary := "", decisions := []
    closeDate := "", lastMovementDate := ""
    courtName := "TJ", courtDistrict := "SP", parties := [partyDef] }

def pessoaC10 : Pessoa := { name := some "FULANO", lawsuits := [procC10] }

def payloadC10 : Payload := { result := [pessoaC10] }

/-- A parseable reasoning-service response with a confidence far outside
the 0 to 100 contract. -/
def rC10 : LLMJson :=
  { foi_absolvido := some (some true), confianca_analise := some 150
    justificativa := some "ok", detalhes_ia := some "d" }

/-- A provider oracle that always fails, for closed instances. -/
def providerFail : String → Except String Payload :=
  fun _ => Except.error "offline"

/-- A reasoning-service oracle that always fails. -/
def llmFail : String → Except String LLMJson :=
  fun _ => Except.error "boom"

/-- A reasoning-service oracle that always answers with the
out-of-contract parseable response. -/
def llmOkC10 : String → Except String LLMJson := fun _ => Except.ok rC10

/-- A keyword-path result record carrying a given outcome, for the
statistics example. -/
def resC8 (b : Option Bool) : AnalysisResult :=
  { cpf := "0", nome := "n", foi_absolvido := b
    total_processos_criminais := 0, total_absolvicoes := 0
    detalhes_absolvicoes := [], status := "sucesso" }

/-- Ten results: three absolved, four not absolved, three unknown. -/
def resultsC8 : List AnalysisResult :=
  [resC8 (some true), resC8 (some true), resC8 (some true),
   resC8 (some false), resC8 (some false), resC8 (some false),
   resC8 (some false), resC8 none, resC8 none, resC8 none]

theorem batch_aux_fst {α : Type} (step : String → α) (total i : Nat)
    (l : List String) : (batch_aux step total i l).1 = l.map step := by
  induction l generalizing i with
  | nil => rfl
  | cons c rest ih => simp [batch_aux, ih]

theorem batch_aux_trace {α : Type} (step : String → α) (total i : Nat)
    (l : List String) :
    ((batch_aux step total i l).2).map (fun e => e.1) =
        List.range' i l.length ∧
    ((batch_aux step total i l).2).map (fun e => e.2.1) =
        List.replicate l.length total ∧
    ((batch_aux step total i l).2).map (fun e => e.2.2) =
        (batch_aux step total i l).1 := by
  induction l generalizing i with
  | nil => exact ⟨rfl, rfl, rfl⟩
  | cons c rest ih =>
    obtain ⟨ihA, ihB, ihC⟩ := ih (i + 1)
    refine ⟨?_, ?_, ?_⟩ <;>
      simp [batch_aux, List.range'_succ, List.replicate, ihA, ihB, ihC]

theorem analyze_absolution_cpf (bdc : Payload) (cpf : String) :
    (analyze_absolution bdc cpf).cpf = cpf := by
  unfold analyze_absolution
  cases bdc.result <;> rfl

theorem process_one_kw_cpf (provider : String → Except String Payload)
    (cpf : String) :
    (process_one analyze_absolution provider cpf).cpf = cpf := by
  unfold process_one
  cases (fetch_single_cpf_data provider cpf).2 with
  | err m => rfl
  | ok p => exact analyze_absolution_cpf p cpf

theorem analyze_llm_cpf (llm : String → Except String LLMJson)
    (bdc : Payload) (cpf : String) :
    ((analyze_absolution_with_llm llm bdc cpf).2).cpf = cpf := by
  unfold analyze_absolution_with_llm
  cases bdc.result <;> rfl

theorem process_one_llm_cpf (llm : String → Except String LLMJson)
    (provider : String → Except String Payload) (cpf : String) :
    (process_one_llm llm provider cpf).cpf = cpf := by
  unfold process_one_llm
  cases (fetch_single_cpf_data provider cpf).2 with
  | err m => rfl
  | ok p => exact analyze_llm_cpf llm p cpf

theorem scanFields_no_match (proc : Lawsuit) (acc : List Finding)
    (campos : List String) (h : ∀ c ∈ campos, campoMatch c = false) :
    scanFields proc acc campos = acc := by
  induction campos with
  | nil => rfl
  | cons campo rest ih =>
    have hc : campoMatch campo = false := h campo (List.mem_cons_self _ _)
    have hrest : ∀ c ∈ rest, campoMatch c = false :=
      fun c hcm => h c (List.mem_cons_of_mem _ hcm)
    unfold scanFields
    by_cases he : pyStrip campo = ""
    · simp [he, ih hrest]
    · by_cases hl : lastProcessoIs (numero_processo proc) acc = true
      · simp [he, hc, hl]
      · simp [he, hc, hl, ih hrest]

theorem scan_foldl_no_match (pcs : List Lawsuit)
    (h : ∀ proc ∈ pcs, ∀ c ∈ campos_decisao proc, campoMatch c = false) :
    pcs.foldl (fun acc proc => scanFields proc acc (campos_decisao proc)) []
      = [] := by
  induction pcs with
  | nil => rfl
  | cons p ps ih =>
    simp only [List.foldl_cons]
    rw [scanFields_no_match p [] _ (h p (List.mem_cons_self _ _))]
    exact ih fun proc hp c hc => h proc (List.mem_cons_of_mem _ hp) c hc

theorem lastProcessoIs_false (numero : String) (acc : List Finding)
    (h : ∀ f ∈ acc, f.processo ≠ numero) :
    lastProcessoIs numero acc = false := by
  unfold lastProcessoIs
  cases hg : acc.getLast? with
  | none => rfl
  | some f =>
    obtain ⟨hne, heq⟩ :=
      List.mem_getLast?_eq_getLast (show f ∈ acc.getLast? from hg)
    have hf : f ∈ acc := heq ▸ List.getLast_mem hne
    simp [h f hf]

theorem scanFields_eq_find (proc : Lawsuit) (acc : List Finding)
    (campos : List String)
    (h : ∀ f ∈ acc, f.processo ≠ numero_processo proc) :
    scanFields proc acc campos =
      match campos.find? (fun c => !(pyStrip c == "") && campoMatch c) with
      | some campo => acc ++ [mkFinding proc campo]
      | none => acc := by
  induction campos with
  | nil => rfl
  | cons campo rest ih =>
    unfold scanFields
    by_cases he : pyStrip campo = ""
    · have hpred : (!(pyStrip campo == "") && campoMatch campo) = false := by
        simp [he]
      simp [he, List.find?_cons, hpred, ih]
    · by_cases hm : campoMatch campo = true
      · have hpred : (!(pyStrip campo == "") && campoMatch campo) = true := by
          simp [he, hm]
        have hlast : lastProcessoIs (numero_processo proc)
            (acc ++ [mkFinding proc campo]) = true := by
          simp [lastProcessoIs, List.getLast?_concat, mkFinding]
        simp [he, hm, hlast, List.find?_cons, hpred]
      · have hpred : (!(pyStrip campo == "") && campoMatch campo) = false := by
          simp [hm]
        have hlast : lastProcessoIs (numero_processo proc) acc = false :=
          lastProcessoIs_false _ acc h
        simp [he, hm, hlast, List.find?_cons, hpred, ih]

theorem scanFields_length_le (proc : Lawsuit) (campos : List String)
    (acc : List Finding) :
    (scanFields proc acc campos).length ≤ acc.length + 1 := by
  induction campos generalizing acc with
  | nil => simp [scanFields]
  | cons campo rest ih =>
    unfold scanFields
    by_cases he : pyStrip campo = ""
    · simpa [he] using ih acc
    · by_cases hm : campoMatch campo = true
      · have hlast : lastProcessoIs (numero_processo proc)
            (acc ++ [mkFinding proc campo]) = true := by
          simp [lastProcessoIs, List.getLast?_concat, mkFinding]
        simp [he, hm, hlast]
      · by_cases hl : lastProcessoIs (numero_processo proc) acc = true
        · simp [he, hm, hl]
        · simpa [he, hm, hl] using ih acc

theorem countP_option_partition {α : Type} (f : α → Option Bool)
    (l : List α) :
    l.countP (fun r => f r == some true)
      + l.countP (fun r => f r == some false)
      + l.countP (fun r => f r == none) = l.length := by
  induction l with
  | nil => rfl
  | cons a as ih =>
    rcases hfa : f a with _ | b
    · simp [List.countP_cons, hfa, beq_iff_eq]
      omega
    · cases b <;> simp [List.countP_cons, hfa, beq_iff_eq] <;> omega

/-- C5: a person is counted as defendant in a lawsuit exactly when the
court type is CRIMINAL and some party has role label DEFENDANT or RÉU
(uppercased) or detailed subtype RÉU (uppercased), with the trimmed
uppercased person name a substring of the trimmed uppercased party
name; lawsuits of any other court type never count, regardless of
parties. -/
theorem defendant_filter_iff (nome : String) (proc : Lawsuit)
    (lawsuits : List Lawsuit) :
    (proc ∈ processos_criminais nome lawsuits ↔
      proc ∈ lawsuits ∧ proc.courtType = "CRIMINAL" ∧
        ∃ p ∈ proc.parties,
          (pyUpper p.type = "DEFENDANT" ∨ pyUpper p.type = "RÉU" ∨
            pyUpper p.specificType = "RÉU") ∧
          strContains (pyUpper (pyStrip p.name)) (pyUpper (pyStrip nome)) = true) ∧
    (proc.courtType = "CRIMINAL" ∨ isDefendant nome proc = false) := by
  constructor
  · rw [processos_criminais, List.mem_filter]
    simp only [isDefendant, is_reu, isReuParty, List.any_eq_true,
      Bool.and_eq_true, Bool.or_eq_true, beq_iff_eq, and_assoc]
    constructor
    · rintro ⟨hmem, hcrim, p, hp, hrole, hname⟩
      exact ⟨hmem, hcrim, p, hp, by tauto, hname⟩
    · rintro ⟨hmem, hcrim, p, hp, hrole, hname⟩
      exact ⟨hmem, hcrim, p, hp, by tauto, hname⟩
  · by_cases h : proc.courtType = "CRIMINAL"
    · exact Or.inl h
    · refine Or.inr ?_
      simp [isDefendant, beq_iff_eq, h]

/-- C6: an identifier that does not sanitize to exactly 11 digits is
answered with the invalid-identifier error before any provider call
(call count 0), and the batch unit maps it to the api-error result with
unknown outcome and zero counts, for every analyzer (the classifier is
not consulted). -/
theorem invalid_identifier_no_call
    (analyzer : Payload → String → AnalysisResult)
    (provider : String → Except String Payload) (cpf : String)
    (h : (sanitize cpf).length ≠ 11) :
    fetch_single_cpf_data provider cpf = (0, FetchOutcome.err "CPF inválido") ∧
    process_one analyzer provider cpf = erro_api_result cpf "CPF inválido" ∧
    (erro_api_result cpf "CPF inválido").foi_absolvido = none ∧
    (erro_api_result cpf "CPF inválido").total_processos_criminais = 0 ∧
    (erro_api_result cpf "CPF inválido").total_absolvicoes = 0 ∧
    (erro_api_result cpf "CPF inválido").status = "erro_api: CPF inválido" ∧
    process_batch provider [cpf] =
      [erro_api_result cpf "CPF inválido"] := by
  have hf : fetch_single_cpf_data provider cpf =
      (0, FetchOutcome.err "CPF inválido") := by
    unfold fetch_single_cpf_data
    simp [h]
  refine ⟨hf, ?_, rfl, rfl, rfl, rfl, ?_⟩
  · unfold process_one
    rw [hf]
  · unfold process_batch process_batch_full
    simp only [batch_aux]
    unfold process_one
    rw [hf]

/-- C6 witness: the identifier 123 is rejected without any provider
call and becomes the api-error result. -/
theorem invalid_identifier_no_call_witness :
    fetch_single_cpf_data providerFail "123" =
      (0, FetchOutcome.err "CPF inválido") ∧
    process_one analyze_absolution providerFail "123" =
      erro_api_result "123" "CPF inválido" ∧
    (erro_api_result "123" "CPF inválido").foi_absolvido = none ∧
    (erro_api_result "123" "CPF inválido").total_processos_criminais = 0 ∧
    (erro_api_result "123" "CPF inválido").total_absolvicoes = 0 ∧
    (erro_api_result "123" "CPF inválido").status = "erro_api: CPF inválido" ∧
    process_batch providerFail ["123"] =
      [erro_api_result "123" "CPF inválido"] :=
  invalid_identifier_no_call analyze_absolution providerFail "123" (by decide)

/-- C2 counterexample: a payload with a non-empty result entry and zero
qualifying lawsuits gets foi_absolvido = some false from the keyword
classifier, not none as the claim states. -/
theorem zero_qualifying_counterexample :
    payloadC2.result ≠ [] ∧
    processos_criminais (pessoaC2.name.getD "Nome não informado")
      pessoaC2.lawsuits = [] ∧
    (analyze_absolution payloadC2 "00000000000").foi_absolvido = some false ∧
    (analyze_absolution payloadC2 "00000000000").foi_absolvido ≠ none := by
  refine ⟨by decide, rfl, rfl, by decide⟩

/-- C2 amended: with a non-empty result entry and zero qualifying
defendant-side criminal lawsuits, the keyword classifier returns
foi_absolvido = false with zero counts and status sucesso; the unknown
outcome arises only when the result set itself is missing or empty. -/
theorem zero_qualifying_gives_false (bdc : Payload) (cpf : String)
    (pessoa : Pessoa) (rest : List Pessoa)
    (hres : bdc.result = pessoa :: rest)
    (hzero : processos_criminais (pessoa.name.getD "Nome não informado")
        pessoa.lawsuits = []) :
    (analyze_absolution bdc cpf).foi_absolvido = some false ∧
    (analyze_absolution bdc cpf).total_processos_criminais = 0 ∧
    (analyze_absolution bdc cpf).total_absolvicoes = 0 ∧
    (analyze_absolution bdc cpf).status = "sucesso" := by
  unfold analyze_absolution
  rw [hres]
  simp [hzero]

/-- C2 amended witness: the concrete person with no lawsuits. -/
theorem zero_qualifying_gives_false_witness :
    (analyze_absolution payloadC2 "00000000000").foi_absolvido = some false ∧
    (analyze_absolution payloadC2 "00000000000").total_processos_criminais = 0 ∧
    (analyze_absolution payloadC2 "00000000000").total_absolvicoes = 0 ∧
    (analyze_absolution payloadC2 "00000000000").status = "sucesso" :=
  zero_qualifying_gives_false payloadC2 "00000000000" pessoaC2 [] rfl rfl

/-- C3: on any payload with a non-empty result set the keyword
classifier yields a boolean outcome, equal to whether the finding count
is positive; when no scanned field of any qualifying lawsuit matches
the vocabulary the outcome is false with zero findings, never
unknown. -/
theorem nonempty_result_outcome_boolean (bdc : Payload) (cpf : String)
    (pessoa : Pessoa) (rest : List Pessoa)
    (hres : bdc.result = pessoa :: rest) :
    (∃ b, (analyze_absolution bdc cpf).foi_absolvido = some b) ∧
    (analyze_absolution bdc cpf).foi_absolvido =
      some (decide (0 < (analyze_absolution bdc cpf).total_absolvicoes)) ∧
    ((∀ proc ∈ processos_criminais (pessoa.name.getD "Nome não informado")
          pessoa.lawsuits, ∀ c ∈ campos_decisao proc, campoMatch c = false) →
      (analyze_absolution bdc cpf).foi_absolvido = some false ∧
      (analyze_absolution bdc cpf).total_absolvicoes = 0) := by
  obtain ⟨res⟩ := bdc
  have hres2 : res = pessoa :: rest := hres
  subst hres2
  refine ⟨⟨_, rfl⟩, rfl, fun hnone => ?_⟩
  have h0 := scan_foldl_no_match _ hnone
  constructor
  · show some (decide (0 <
        (List.foldl (fun acc proc => scanFields proc acc (campos_decisao proc))
          [] (processos_criminais (pessoa.name.getD "Nome não informado")
            pessoa.lawsuits)).length)) = some false
    rw [h0]
    rfl
  · show (List.foldl (fun acc proc => scanFields proc acc (campos_decisao proc))
        [] (processos_criminais (pessoa.name.getD "Nome não informado")
          pessoa.lawsuits)).length = 0
    rw [h0]
    rfl

/-- C3 witness: one qualifying lawsuit whose only text reports a
conviction gives foi_absolvido = some false with zero findings. -/
theorem nonempty_result_outcome_boolean_witness :
    (analyze_absolution payloadC3 "11111111111").foi_absolvido = some false ∧
    (analyze_absolution payloadC3 "11111111111").total_absolvicoes = 0 :=
  (nonempty_result_outcome_boolean payloadC3 "11111111111" pessoaC3 []
    rfl).2.2 (by decide)


/-- C4 counterexample: two qualifying lawsuits share case number X; the
second contains an absolution keyword in its Content field, yet no
finding is recorded for it, because the break fires on its first
non-empty field when the finding of the first lawsuit carries the same
case number. The batch records one finding in total, not one per
matching lawsuit. -/
theorem duplicate_case_scan_counterexample :
    (campos_decisao procC4a).any campoMatch = true ∧
    (campos_decisao procC4b).any campoMatch = true ∧
    (analyze_absolution payloadC4 "00000000000").total_processos_criminais
      = 2 ∧
    (analyze_absolution payloadC4 "00000000000").total_absolvicoes = 1 ∧
    (analyze_absolution payloadC4 "00000000000").detalhes_absolvicoes =
      [mkFinding procC4a "absolvo"] := by
  refine ⟨by decide, by decide, by decide, by decide, by decide⟩

/-- C4 amended: for a qualifying lawsuit scanned from an accumulator in
which no earlier finding carries its case number, the scan appends
exactly one finding when some non-empty field matches the vocabulary,
built from the first such field, and appends nothing otherwise;
independently of the accumulator a single lawsuit never contributes
more than one finding, and a field containing the absolution stem is
always classified as Absolvição, ahead of every other subtype. -/
theorem scan_lawsuit_first_match (proc : Lawsuit) (acc : List Finding)
    (h : ∀ f ∈ acc, f.processo ≠ numero_processo proc) :
    scanFields proc acc (campos_decisao proc) =
      (match (campos_decisao proc).find?
          (fun c => !(pyStrip c == "") && campoMatch c) with
       | some campo => acc ++ [mkFinding proc campo]
       | none => acc) ∧
    (∀ (campos : List String) (acc2 : List Finding),
      (scanFields proc acc2 campos).length ≤ acc2.length + 1) ∧
    (∀ t : String, strContains (pyLower t) "absolv" = true →
      classify_absolution_type t = "Absolvição") := by
  refine ⟨scanFields_eq_find proc acc _ h,
    fun campos acc2 => scanFields_length_le proc campos acc2,
    fun t ht => ?_⟩
  unfold classify_absolution_type
  simp [ht]

/-- C4 amended witness: the scan of the first lawsuit from an empty
accumulator records exactly the finding of its first matching field. -/
theorem scan_lawsuit_first_match_witness :
    scanFields procC4a [] (campos_decisao procC4a) =
      (match (campos_decisao procC4a).find?
          (fun c => !(pyStrip c == "") && campoMatch c) with
       | some campo => [] ++ [mkFinding procC4a campo]
       | none => ([] : List Finding)) ∧
    (∀ (campos : List String) (acc2 : List Finding),
      (scanFields procC4a acc2 campos).length ≤ acc2.length + 1) ∧
    (∀ t : String, strContains (pyLower t) "absolv" = true →
      classify_absolution_type t = "Absolvição") :=
  scan_lawsuit_first_match procC4a [] (by decide)

/-- C7: an empty or whitespace narrative returns the no-data analysis
with unknown outcome, confidence 0 and the no-decisions rationale
without any reasoning-service call; a service failure or parse failure
maps to unknown outcome, confidence 0 and a rationale carrying the
failure detail; and through the surrounding analyzer the empty
narrative yields the corresponding result without any service call. -/
theorem llm_failure_handling (llm : String → Except String LLMJson)
    (texto e : String) (bdc : Payload) (cpf : String) (pessoa : Pessoa)
    (rest : List Pessoa) :
    (pyStrip texto = "" → analyze_with_llm llm texto = (0, no_data_json)) ∧
    (pyStrip texto ≠ "" → llm texto = Except.error e →
      analyze_with_llm llm texto = (1, llm_error_json e) ∧
      (analyze_with_llm llm texto).2.foi_absolvido = some none ∧
      (analyze_with_llm llm texto).2.confianca_analise = some 0 ∧
      (analyze_with_llm llm texto).2.justificativa =
        some ("Erro na análise IA: " ++ e)) ∧
    (bdc.result = pessoa :: rest →
      pyStrip (texto_para_ia (pessoa.name.getD "Nome não informado")
        pessoa.lawsuits) = "" →
      analyze_absolution_with_llm llm bdc cpf =
        (0, { cpf := cpf, nome := pessoa.name.getD "Nome não informado"
              foi_absolvido := none, confianca_analise := 0
              justificativa := "Nenhuma decisão disponível para análise"
              detalhes_ia := "Sem dados suficientes"
              total_processos_criminais :=
                (processos_criminais (pessoa.name.getD "Nome não informado")
                  pessoa.lawsuits).length
              status := "sucesso" })) := by
  refine ⟨fun h0 => ?_, fun hne herr => ?_, fun hres hempty => ?_⟩
  · unfold analyze_with_llm
    simp [h0]
  · have hcall : analyze_with_llm llm texto = (1, llm_error_json e) := by
      unfold analyze_with_llm
      simp [hne, herr]
    exact ⟨hcall, by rw [hcall]; rfl, by rw [hcall]; rfl, by rw [hcall]; rfl⟩
  · obtain ⟨res⟩ := bdc
    have hres2 : res = pessoa :: rest := hres
    subst hres2
    have h1 : analyze_with_llm llm
        (texto_para_ia (pessoa.name.getD "Nome não informado")
          pessoa.lawsuits) = (0, no_data_json) := by
      unfold analyze_with_llm
      simp [hempty]
    show Prod.mk (analyze_with_llm llm
        (texto_para_ia (pessoa.name.getD "Nome não informado")
          pessoa.lawsuits)).1
      ({ cpf := cpf
         nome := pessoa.name.getD "Nome não informado"
         foi_absolvido := (analyze_with_llm llm
           (texto_para_ia (pessoa.name.getD "Nome não informado")
             pessoa.lawsuits)).2.foi_absolvido.join
         confianca_analise := (analyze_with_llm llm
           (texto_para_ia (pessoa.name.getD "Nome não informado")
             pessoa.lawsuits)).2.confianca_analise.getD 0
         justificativa := (analyze_with_llm llm
           (texto_para_ia (pessoa.name.getD "Nome não informado")
             pessoa.lawsuits)).2.justificativa.getD ""
         detalhes_ia := (analyze_with_llm llm
           (texto_para_ia (pessoa.name.getD "Nome não informado")
             pessoa.lawsuits)).2.detalhes_ia.getD ""
         total_processos_criminais :=
           (processos_criminais (pessoa.name.getD "Nome não informado")
             pessoa.lawsuits).length
         status := "sucesso" } : LLMResult) = _
    rw [h1]
    rfl

/-- C7 witness: with a failing service, the empty narrative is answered
locally with zero calls, and a non-empty narrative maps the failure
into the rationale. -/
theorem llm_failure_handling_witness :
    analyze_with_llm llmFail "" = (0, no_data_json) ∧
    analyze_with_llm llmFail "x" = (1, llm_error_json "boom") ∧
    analyze_absolution_with_llm llmFail payloadC2 "00000000000" =
      (0, { cpf := "00000000000", nome := "FULANO DA SILVA"
            foi_absolvido := none, confianca_analise := 0
            justificativa := "Nenhuma decisão disponível para análise"
            detalhes_ia := "Sem dados suficientes"
            total_processos_criminais := 0
            status := "sucesso" }) :=
  ⟨(llm_failure_handling llmFail "" "boom" payloadC2 "00000000000"
      pessoaC2 []).1 rfl,
   ((llm_failure_handling llmFail "x" "boom" payloadC2 "00000000000"
      pessoaC2 []).2.1 (by decide) rfl).1,
   (llm_failure_handling llmFail "" "boom" payloadC2 "00000000000"
      pessoaC2 []).2.2 rfl rfl⟩

/-- C10: a reasoning-service response that parses as a JSON object is
propagated into a success-status result with no validation: the parsed
outcome, confidence, rationale and detail appear verbatim, with a
missing confidence defaulting to 0 and missing rationale or detail to
the empty string. -/
theorem llm_response_verbatim (llm : String → Except String LLMJson)
    (bdc : Payload) (cpf : String) (pessoa : Pessoa) (rest : List Pessoa)
    (r : LLMJson)
    (hres : bdc.result = pessoa :: rest)
    (hok : llm (texto_para_ia (pessoa.name.getD "Nome não informado")
      pessoa.lawsuits) = Except.ok r)
    (hne : pyStrip (texto_para_ia (pessoa.name.getD "Nome não informado")
      pessoa.lawsuits) ≠ "") :
    analyze_absolution_with_llm llm bdc cpf =
      (1, { cpf := cpf, nome := pessoa.name.getD "Nome não informado"
            foi_absolvido := r.foi_absolvido.join
            confianca_analise := r.confianca_analise.getD 0
            justificativa := r.justificativa.getD ""
            detalhes_ia := r.detalhes_ia.getD ""
            total_processos_criminais :=
              (processos_criminais (pessoa.name.getD "Nome não informado")
                pessoa.lawsuits).length
            status := "sucesso" }) := by
  obtain ⟨res⟩ := bdc
  have hres2 : res = pessoa :: rest := hres
  subst hres2
  have h1 : analyze_with_llm llm
      (texto_para_ia (pessoa.name.getD "Nome não informado")
        pessoa.lawsuits) = (1, r) := by
    unfold analyze_with_llm
    simp [hne, hok]
  show Prod.mk (analyze_with_llm llm
      (texto_para_ia (pessoa.name.getD "Nome não informado")
        pessoa.lawsuits)).1
    ({ cpf := cpf
       nome := pessoa.name.getD "Nome não informado"
       foi_absolvido := (analyze_with_llm llm
         (texto_para_ia (pessoa.name.getD "Nome não informado")
           pessoa.lawsuits)).2.foi_absolvido.join
       confianca_analise := (analyze_with_llm llm
         (texto_para_ia (pessoa.name.getD "Nome não informado")
           pessoa.lawsuits)).2.confianca_analise.getD 0
       justificativa := (analyze_with_llm llm
         (texto_para_ia (pessoa.name.getD "Nome não informado")
           pessoa.lawsuits)).2.justificativa.getD ""
       detalhes_ia := (analyze_with_llm llm
         (texto_para_ia (pessoa.name.getD "Nome não informado")
           pessoa.lawsuits)).2.detalhes_ia.getD ""
       total_processos_criminais :=
         (processos_criminais (pessoa.name.getD "Nome não informado")
           pessoa.lawsuits).length
       status := "sucesso" } : LLMResult) = _
  rw [h1]

/-- C10 witness: a response carrying confidence 150, outside the 0-100
contract, lands verbatim in the result. -/
theorem llm_response_verbatim_witness :
    analyze_absolution_with_llm llmOkC10 payloadC10 "22222222222" =
      (1, { cpf := "22222222222", nome := "FULANO"
            foi_absolvido := some true, confianca_analise := 150
            justificativa := "ok", detalhes_ia := "d"
            total_processos_criminais := 1, status := "sucesso" }) :=
  llm_response_verbatim llmOkC10 payloadC10 "22222222222" pessoaC10 []
    rC10 rfl rfl (by decide)

/-- C1: for any completion order (a permutation of the submitted
identifiers), both batch variants return exactly one result per
identifier and the multiset of cpf fields of the output equals the
multiset of submitted identifiers: no result is lost or duplicated. -/
theorem process_batch_length_and_multiset
    (provider providerL : String → Except String Payload)
    (llm : String → Except String LLMJson)
    (cpfs order : List String) (h : order.Perm cpfs) :
    (process_batch provider order).length = cpfs.length ∧
    (((process_batch provider order).map AnalysisResult.cpf : List String) :
        Multiset String) = (cpfs : Multiset String) ∧
    (process_batch_llm llm providerL order).length = cpfs.length ∧
    (((process_batch_llm llm providerL order).map LLMResult.cpf :
        List String) : Multiset String) = (cpfs : Multiset String) := by
  have h1 : (process_batch provider order).map AnalysisResult.cpf = order := by
    unfold process_batch process_batch_full
    rw [batch_aux_fst, List.map_map]
    have hpt : ∀ a ∈ order,
        (AnalysisResult.cpf ∘ process_one analyze_absolution provider) a =
          id a :=
      fun a _ => process_one_kw_cpf provider a
    rw [List.map_congr_left hpt]
    exact List.map_id order
  have h2 : (process_batch_llm llm providerL order).map LLMResult.cpf
      = order := by
    unfold process_batch_llm process_batch_llm_full
    rw [batch_aux_fst, List.map_map]
    have hpt : ∀ a ∈ order,
        (LLMResult.cpf ∘ process_one_llm llm providerL) a = id a :=
      fun a _ => process_one_llm_cpf llm providerL a
    rw [List.map_congr_left hpt]
    exact List.map_id order
  have hl1 : (process_batch provider order).length = cpfs.length := by
    have := congrArg List.length h1
    rw [List.length_map] at this
    rw [this, h.length_eq]
  have hl2 : (process_batch_llm llm providerL order).length = cpfs.length := by
    have := congrArg List.length h2
    rw [List.length_map] at this
    rw [this, h.length_eq]
  exact ⟨hl1, by rw [h1]; exact Multiset.coe_eq_coe.mpr h, hl2,
    by rw [h2]; exact Multiset.coe_eq_coe.mpr h⟩

/-- C1 witness: a two-identifier batch completing in reversed order
keeps the length and the identifier multiset, in both variants. -/
theorem process_batch_length_and_multiset_witness :
    (process_batch providerFail ["22222222222", "11111111111"]).length =
      ["11111111111", "22222222222"].length ∧
    (((process_batch providerFail ["22222222222", "11111111111"]).map
        AnalysisResult.cpf : List String) : Multiset String) =
      (["11111111111", "22222222222"] : Multiset String) ∧
    (process_batch_llm llmFail providerFail
        ["22222222222", "11111111111"]).length =
      ["11111111111", "22222222222"].length ∧
    (((process_batch_llm llmFail providerFail
        ["22222222222", "11111111111"]).map LLMResult.cpf : List String) :
      Multiset String) =
      (["11111111111", "22222222222"] : Multiset String) :=
  process_batch_length_and_multiset providerFail providerFail llmFail
    ["11111111111", "22222222222"] ["22222222222", "11111111111"] (by decide)

/-- C9: in both batch variants the progress callback trace has exactly
one entry per completed unit; its completed counts are exactly
1, 2, ..., total, hence strictly increasing; every entry carries
total = batch size; and every entry carries the just-completed
result, in order. -/
theorem progress_callback_contract
    (provider providerL : String → Except String Payload)
    (llm : String → Except String LLMJson) (order : List String) :
    ((process_batch_full provider order).2).length = order.length ∧
    ((process_batch_full provider order).2).map (fun e => e.1) =
      List.range' 1 order.length ∧
    ((process_batch_full provider order).2).map (fun e => e.2.1) =
      List.replicate order.length order.length ∧
    ((process_batch_full provider order).2).map (fun e => e.2.2) =
      process_batch provider order ∧
    List.Pairwise (fun a b => a < b)
      (((process_batch_full provider order).2).map (fun e => e.1)) ∧
    ((process_batch_llm_full llm providerL order).2).length = order.length ∧
    ((process_batch_llm_full llm providerL order).2).map (fun e => e.1) =
      List.range' 1 order.length ∧
    ((process_batch_llm_full llm providerL order).2).map (fun e => e.2.1) =
      List.replicate order.length order.length ∧
    ((process_batch_llm_full llm providerL order).2).map (fun e => e.2.2) =
      process_batch_llm llm providerL order ∧
    List.Pairwise (fun a b => a < b)
      (((process_batch_llm_full llm providerL order).2).map (fun e => e.1)) := by
  obtain ⟨hA, hB, hC⟩ := batch_aux_trace
    (process_one analyze_absolution provider) order.length 1 order
  obtain ⟨hA2, hB2, hC2⟩ := batch_aux_trace
    (process_one_llm llm providerL) order.length 1 order
  have hlen : ((process_batch_full provider order).2).length =
      order.length := by
    have := congrArg List.length hA
    rw [List.length_map, List.length_range'] at this
    exact this
  have hlen2 : ((process_batch_llm_full llm providerL order).2).length =
      order.length := by
    have := congrArg List.length hA2
    rw [List.length_map, List.length_range'] at this
    exact this
  refine ⟨hlen, hA, hB, hC, ?_, hlen2, hA2, hB2, hC2, ?_⟩
  · rw [show ((process_batch_full provider order).2).map (fun e => e.1) =
      List.range' 1 order.length from hA]
    exact List.pairwise_lt_range' 1 order.length
  · rw [show ((process_batch_llm_full llm providerL order).2).map
      (fun e => e.1) = List.range' 1 order.length from hA2]
    exact List.pairwise_lt_range' 1 order.length

theorem pct_sum_100 (a b c n : Nat) (hn : 0 < n) (habc : a + b + c = n) :
    (if 0 < n then (a : ℚ) / n * 100 else 0)
      + (if 0 < n then (b : ℚ) / n * 100 else 0)
      + (if 0 < n then (c : ℚ) / n * 100 else 0) = 100 := by
  have hne : (n : ℚ) ≠ 0 := Nat.cast_ne_zero.mpr (Nat.pos_iff_ne_zero.mp hn)
  rw [if_pos hn, if_pos hn, if_pos hn]
  have hcast : (a : ℚ) + b + c = n := by exact_mod_cast congrArg Nat.cast habc
  field_simp
  linarith

set_option maxHeartbeats 1600000 in
/-- C8: both summary functions are pure reductions returning the counts
of absolved, not-absolved and unknown outcomes, a three-way partition
of the input; each percentage is count divided by total times 100, with
every percentage 0 on the empty collection; percentages add up to 100
on any non-empty collection; and on the concrete ten-result collection
with 3 absolved, 4 not absolved and 3 unknown the percentages are
30, 40 and 30 and add up to 100. -/
theorem summary_stats_spec (results : List AnalysisResult)
    (resultsL : List LLMResult) :
    (get_summary_stats results).total_processados = results.length ∧
    (get_summary_stats results).total_absolvidos =
      results.countP (fun r => r.foi_absolvido == some true) ∧
    (get_summary_stats results).total_nao_absolvidos =
      results.countP (fun r => r.foi_absolvido == some false) ∧
    (get_summary_stats results).total_sem_dados =
      results.countP (fun r => r.foi_absolvido == none) ∧
    (get_summary_stats results).total_absolvidos +
      (get_summary_stats results).total_nao_absolvidos +
      (get_summary_stats results).total_sem_dados = results.length ∧
    (get_summary_stats results).percentual_absolvidos =
      (if 0 < results.length then
        ((get_summary_stats results).total_absolvidos : ℚ) /
          results.length * 100 else 0) ∧
    (get_summary_stats results).percentual_nao_absolvidos =
      (if 0 < results.length then
        ((get_summary_stats results).total_nao_absolvidos : ℚ) /
          results.length * 100 else 0) ∧
    (get_summary_stats results).percentual_sem_dados =
      (if 0 < results.length then
        ((get_summary_stats results).total_sem_dados : ℚ) /
          results.length * 100 else 0) ∧
    (results = [] ∨
      (get_summary_stats results).percentual_absolvidos +
        (get_summary_stats results).percentual_nao_absolvidos +
        (get_summary_stats results).percentual_sem_dados = 100) ∧
    (get_summary_stats []).percentual_absolvidos = 0 ∧
    (get_summary_stats []).percentual_nao_absolvidos = 0 ∧
    (get_summary_stats []).percentual_sem_dados = 0 ∧
    (get_summary_stats resultsC8).total_processados = 10 ∧
    (get_summary_stats resultsC8).percentual_absolvidos = 30 ∧
    (get_summary_stats resultsC8).percentual_nao_absolvidos = 40 ∧
    (get_summary_stats resultsC8).percentual_sem_dados = 30 ∧
    (get_summary_stats resultsC8).percentual_absolvidos +
      (get_summary_stats resultsC8).percentual_nao_absolvidos +
      (get_summary_stats resultsC8).percentual_sem_dados = 100 ∧
    (get_summary_stats_llm resultsL).total_processados = resultsL.length ∧
    (get_summary_stats_llm resultsL).total_absolvidos +
      (get_summary_stats_llm resultsL).total_nao_absolvidos +
      (get_summary_stats_llm resultsL).total_sem_dados = resultsL.length ∧
    (get_summary_stats_llm resultsL).percentual_absolvidos =
      (if 0 < resultsL.length then
        ((get_summary_stats_llm resultsL).total_absolvidos : ℚ) /
          resultsL.length * 100 else 0) ∧
    (resultsL = [] ∨
      (get_summary_stats_llm resultsL).percentual_absolvidos +
        (get_summary_stats_llm resultsL).percentual_nao_absolvidos +
        (get_summary_stats_llm resultsL).percentual_sem_dados = 100) ∧
    (get_summary_stats_llm ([] : List LLMResult)).percentual_absolvidos
      = 0 := by
  refine ⟨rfl, rfl, rfl, rfl, ?_,
    rfl, rfl, rfl, ?_, rfl, rfl, rfl,
    rfl, ?_, ?_, ?_, ?_,
    rfl, ?_,
    rfl, ?_, rfl⟩
  · have e1 : (get_summary_stats results).total_absolvidos =
        results.countP (fun r => r.foi_absolvido == some true) := rfl
    have e2 : (get_summary_stats results).total_nao_absolvidos =
        results.countP (fun r => r.foi_absolvido == some false) := rfl
    have e3 : (get_summary_stats results).total_sem_dados =
        results.countP (fun r => r.foi_absolvido == none) := rfl
    rw [e1, e2, e3]
    exact countP_option_partition
      (fun r => AnalysisResult.foi_absolvido r) results
  · rcases results with _ | ⟨r0, rs⟩
    · exact Or.inl rfl
    · refine Or.inr ?_
      have f1 : (get_summary_stats (r0 :: rs)).percentual_absolvidos =
          (if 0 < (r0 :: rs).length then
            (((r0 :: rs).countP fun r => r.foi_absolvido == some true) : ℚ) /
              (r0 :: rs).length * 100 else 0) := rfl
      have f2 : (get_summary_stats (r0 :: rs)).percentual_nao_absolvidos =
          (if 0 < (r0 :: rs).length then
            (((r0 :: rs).countP fun r => r.foi_absolvido == some false) : ℚ) /
              (r0 :: rs).length * 100 else 0) := rfl
      have f3 : (get_summary_stats (r0 :: rs)).percentual_sem_dados =
          (if 0 < (r0 :: rs).length then
            (((r0 :: rs).countP fun r => r.foi_absolvido == none) : ℚ) /
              (r0 :: rs).length * 100 else 0) := rfl
      rw [f1, f2, f3]
      exact pct_sum_100 _ _ _ _ (Nat.succ_pos _)
        (countP_option_partition
          (fun r => AnalysisResult.foi_absolvido r) (r0 :: rs))
  · show (get_summary_stats resultsC8).percentual_absolvidos = 30
    norm_num [get_summary_stats, resultsC8, resC8, List.countP_cons]
  · show (get_summary_stats resultsC8).percentual_nao_absolvidos = 40
    norm_num [get_summary_stats, resultsC8, resC8, List.countP_cons]
  · show (get_summary_stats resultsC8).percentual_sem_dados = 30
    norm_num [get_summary_stats, resultsC8, resC8, List.countP_cons]
  · show (get_summary_stats resultsC8).percentual_absolvidos +
        (get_summary_stats resultsC8).percentual_nao_absolvidos +
        (get_summary_stats resultsC8).percentual_sem_dados = 100
    norm_num [get_summary_stats, resultsC8, resC8, List.countP_cons]
  · have e1 : (get_summary_stats_llm resultsL).total_absolvidos =
        resultsL.countP (fun r => r.foi_absolvido == some true) := rfl
    have e2 : (get_summary_stats_llm resultsL).total_nao_absolvidos =
        resultsL.countP (fun r => r.foi_absolvido == some false) := rfl
    have e3 : (get_summary_stats_llm resultsL).total_sem_dados =
        resultsL.countP (fun r => r.foi_absolvido == none) := rfl
    rw [e1, e2, e3]
    exact countP_option_partition
      (fun r => LLMResult.foi_absolvido r) resultsL
  · rcases resultsL with _ | ⟨r0, rs⟩
    · exact Or.inl rfl
    · refine Or.inr ?_
      have f1 : (get_summary_stats_llm (r0 :: rs)).percentual_absolvidos =
          (if 0 < (r0 :: rs).length then
            (((r0 :: rs).countP fun r => r.foi_absolvido == some true) : ℚ) /
              (r0 :: rs).length * 100 else 0) := rfl
      have f2 : (get_summary_stats_llm (r0 :: rs)).percentual_nao_absolvidos =
          (if 0 < (r0 :: rs).length then
            (((r0 :: rs).countP fun r => r.foi_absolvido == some false) : ℚ) /
              (r0 :: rs).length * 100 else 0) := rfl
      have f3 : (get_summary_stats_llm (r0 :: rs)).percentual_sem_dados =
          (if 0 < (r0 :: rs).length then
            (((r0 :: rs).countP fun r => r.foi_absolvido == none) : ℚ) /
              (r0 :: rs).length * 100 else 0) := rfl
      rw [f1, f2, f3]
      exact pct_sum_100 _ _ _ _ (Nat.succ_pos _)
        (countP_option_partition
          (fun r => LLMResult.foi_absolvido r) (r0 :: rs))
